import Mathlib

/-!
Shallow embedding of the moderation rule engine of `src/bot.py` (a Telegram
group-moderation bot) and proofs about its behaviour.

Conventions used throughout:
* Database reads (`db.execute(..., fetchone=True/fetch=True)`) are modelled as
  `Option` values: the accessor catches every exception internally
  (bot.py lines 129-147) and returns `None` on any database error, which the
  call sites cannot distinguish from "no row"; both are `none` here.
* Platform calls (delete/ban/restrict/send) are modelled as emitted
  `PAct` values.  Where a handler wraps platform calls in `try/except`, the
  possibility of a platform failure is modelled by an explicit `ok : Bool`
  parameter (the code's behaviour differs on the two branches); deleting a
  message that an earlier handler already deleted is modelled as raising,
  which aborts the rest of that handler's `try` block, as the Telegram API
  does.
* Timestamps are integers (seconds); `datetime` subtraction becomes `Int`
  subtraction.
* Python strings are `List Char`; `s.lower()` is `List.map Char.toLower`,
  Python's `in` (substring) is `containsSub` below.
-/

namespace MegaBot

/-- Platform-level calls attempted by the handlers. -/
inductive PAct where
  | deleteMsg
  | banMember
  | unbanMember
  | restrictMember
  | unrestrictMember
  | warnInsert
  | sendMessage
  deriving DecidableEq, Repr

/-! ## String helpers (Python semantics) -/

/-- Boolean prefix test on character lists. -/
def isPrefixList : List Char → List Char → Bool
  | [], _ => true
  | _ :: _, [] => false
  | a :: as, b :: bs => a = b && isPrefixList as bs

/-- Python's `needle in hay` substring containment. -/
def containsSub : List Char → List Char → Bool
  | needle, [] => needle.isEmpty
  | needle, c :: rest => isPrefixList needle (c :: rest) || containsSub needle rest

/-- Python `s.lower()`. -/
def lowerStr (s : List Char) : List Char := s.map Char.toLower

/-- ASCII reading of the regex class `\w` used by the `@\w+` pattern. -/
def isWordChar (c : Char) : Bool := c.isAlphanum || c = '_'

/-- Whether the regex `@\w+` matches somewhere in the text: an `@` directly
followed by at least one word character. -/
def hasAtWord : List Char → Bool
  | [] => false
  | '@' :: c :: rest => isWordChar c || hasAtWord (c :: rest)
  | _ :: rest => hasAtWord rest

/-- The link test of `antilink_check` (bot.py lines 6304-6306): the message
text or caption is searched for the patterns `https?://`, `t.me/`,
`telegram.me/` and `@\w+`.  The first three are plain substring searches. -/
def hasLink (s : List Char) : Bool :=
  containsSub "http://".toList s || containsSub "https://".toList s ||
  containsSub "t.me/".toList s || containsSub "telegram.me/".toList s ||
  hasAtWord s

/-- Python `msg.text or msg.caption or ''` (empty strings are falsy). -/
def pyTextOr (text caption : Option (List Char)) : List Char :=
  match text with
  | some s => if s.isEmpty then (match caption with
      | some c => c
      | none => []) else s
  | none =>
    match caption with
    | some c => c
    | none => []

/-! ## Warning escalation engine

`warn_command` (bot.py lines 2949-3012) and `warn_user_internal`
(lines 6321-6343) share the same counting core: INSERT a `warnings` row,
COUNT the rows for the `(chat, user)` key, and if the post-insert count has
reached `warn_limit`, attempt the configured platform action and — only when
that attempt does not raise — DELETE all `warnings` rows for the key (the
DELETE sits inside the `try` block, after the platform call). -/

/-- One warning-producing event on a key whose current row count is `count`.
`ok` is whether the platform action succeeds when escalation is attempted.
Returns the row count after the event and whether escalation was attempted. -/
def warnEvent (warnLimit : Nat) (ok : Bool) (count : Nat) : Nat × Bool :=
  let current := count + 1
  if warnLimit ≤ current then
    if ok then (0, true) else (current, true)
  else (current, false)

/-- `warn_command` additionally replies with a failure notice when the
platform action raises `TelegramError` (line 3001).  The third component
records whether such a failure notice was sent. -/
def warnCommandStep (warnLimit : Nat) (ok : Bool) (count : Nat) : Nat × Bool × Bool :=
  let r := warnEvent warnLimit ok count
  (r.1, r.2, r.2 && !ok)

/-- Run a sequence of warning events (each entry tells whether the platform
action would succeed there); returns the final count and how many times the
escalation action was attempted. -/
def runWarns (warnLimit : Nat) (count : Nat) : List Bool → Nat × Nat
  | [] => (count, 0)
  | ok :: rest =>
    let r := warnEvent warnLimit ok count
    let s := runWarns warnLimit r.1 rest
    (s.1, (if r.2 then 1 else 0) + s.2)

/-- The trace of settled states: after each event, the stored row count and
whether escalation fired at that event. -/
def warnTrace (warnLimit : Nat) (count : Nat) : List Bool → List (Nat × Bool)
  | [] => []
  | ok :: rest =>
    let r := warnEvent warnLimit ok count
    r :: warnTrace warnLimit r.1 rest

/-! ## Flood detector

`antiflood_check` (bot.py lines 6246-6287).  The `flood_control` row for a
key holds `first_message_time` (possibly NULL, read as a diff of 999) and
`message_count`.  The window length 5 seconds is hardcoded; the limit comes
from `antiflood_limit` with default 10.  On firing, the row DELETE sits at
the end of the `try` block after the platform calls (`except: pass`). -/

structure FloodRow where
  firstTime : Option Int
  count : Nat
  deriving DecidableEq, Repr

/-- `(now - flood['first_message_time']).total_seconds() if flood['first_message_time'] else 999`. -/
def timeDiff (now : Int) (t : Option Int) : Int :=
  match t with
  | some t0 => now - t0
  | none => 999

/-- One message through the flood detector for a key whose row is `st`
(`none` = no row), given that the chat's antiflood is enabled with limit
`limit`.  `ok` is whether the platform calls in the firing branch succeed.
Returns the new row and whether the flood action was attempted. -/
def antifloodStep (limit : Nat) (ok : Bool) (st : Option FloodRow) (now : Int) :
    Option FloodRow × Bool :=
  match st with
  | some fl =>
    if timeDiff now fl.firstTime < 5 then
      let c := fl.count + 1
      if limit ≤ c then
        if ok then (none, true) else (some ⟨fl.firstTime, c⟩, true)
      else (some ⟨fl.firstTime, c⟩, false)
    else (some ⟨some now, 1⟩, false)
  | none => (some ⟨some now, 1⟩, false)

/-- Run the flood detector (platform calls succeeding) over a list of message
timestamps; returns the final row and the number of firings. -/
def runFlood (limit : Nat) (st : Option FloodRow) : List Int → Option FloodRow × Nat
  | [] => (st, 0)
  | t :: rest =>
    let r := antifloodStep limit true st t
    let s := runFlood limit r.1 rest
    (s.1, (if r.2 then 1 else 0) + s.2)

/-- Follows the words of claim C4 (not the source): on each message the
detector resets the window to windowStart := now, count := 1 when the elapsed
time since windowStart exceeds the window length, and otherwise increments
the count, firing when the count reaches the limit and then resetting. -/
def antifloodStepClaimed (limit : Nat) (st : Option FloodRow) (now : Int) :
    Option FloodRow × Bool :=
  match st with
  | some fl =>
    if 5 < timeDiff now fl.firstTime then (some ⟨some now, 1⟩, false)
    else
      let c := fl.count + 1
      if limit ≤ c then (some ⟨some now, 0⟩, true)
      else (some ⟨fl.firstTime, c⟩, false)
  | none => (some ⟨some now, 1⟩, false)

/-! ## Per-message pipeline

`main` (bot.py line 7460) registers exactly one handler for non-command
messages: `message_handler_main` (lines 7506-7565), which calls, in order,
`track_messages` (a pure counter write), `antiflood_check`, `antilink_check`,
`check_antispam`, `filter_handler` and `blacklist_handler`, followed by the
word-scramble and auto-reply blocks, both of which only send chat messages
(`reply_text`) and touch no moderation state — they are omitted here.
`lock_message_handler` (lines 3341-3402) and the approval-aware
`antilink_handler` (lines 3454-3517) are defined in the source but are never
registered and never called; they are embedded below for comparison. -/

/-- An inbound message: `text`/`caption` as Python optionals, plus the
content flags that `lock_message_handler` inspects. -/
structure Msg where
  text : Option (List Char) := none
  caption : Option (List Char) := none
  sticker : Bool := false
  photo : Bool := false
  video : Bool := false
  document : Bool := false
  audio : Bool := false
  animation : Bool := false
  voice : Bool := false
  poll : Bool := false
  forward : Bool := false
  contact : Bool := false
  location : Bool := false
  urlEntity : Bool := false
  deriving DecidableEq, Repr

/-- The antiflood columns of the `chats` row (SELECT at line 6257). -/
structure FloodCfg where
  enabled : Bool
  limit : Nat := 10
  action : List Char := "mute".toList
  deriving DecidableEq, Repr

/-- The antilink columns of the `chats` row (SELECT at line 6300). -/
structure LinkCfg where
  enabled : Bool
  action : List Char := "delete".toList
  deriving DecidableEq, Repr

/-- One `blacklist` row: trigger word and configured action string. -/
structure BlRow where
  trigger : List Char
  action : List Char := "delete".toList
  deriving DecidableEq, Repr

/-- One `filters` row (the reply text only affects the sent message body). -/
structure FilterRow where
  keyword : List Char
  deriving DecidableEq, Repr

/-- Everything the pipeline reads about the group, the sender and the
database.  Each `Option` field is one database read; `none` means the read
returned no row or failed (the accessor returns `None` on every exception).
`isAdmin` is the platform role query of `is_admin` (bot.py lines 635-645),
which returns `False` when the query raises.  `gbanned` and `approved` are
row-existence tests (`fetchone` result truthiness), so a failed read is
indistinguishable from the row being absent. -/
structure Env where
  isAdmin : Bool := false
  gbanned : Bool := false
  approved : Bool := false
  floodCfg : Option FloodCfg := none
  floodRow : Option FloodRow := none
  linkCfg : Option LinkCfg := none
  antispamEnabled : Option Bool := none
  filters : Option (List FilterRow) := none
  blacklist : Option (List BlRow) := none
  lockedTypes : Option (List (List Char)) := none
  deriving Repr

/-- Platform calls of the flood action branch (lines 6272-6280): the action
string selects the member operation, then a notification is sent. -/
def floodActs (action : List Char) : List PAct :=
  (if action = "ban".toList then [.banMember]
   else if action = "kick".toList then [.banMember, .unbanMember]
   else if action = "mute".toList then [.restrictMember]
   else []) ++ [.sendMessage]

/-- `antiflood_check` (lines 6246-6287) as registered in the pipeline:
admins are exempt, a missing/disabled config passes, otherwise the window
step runs.  Platform calls are assumed to succeed here (the failure branch
is studied through `antifloodStep` directly). -/
def antifloodCheck (env : Env) (now : Int) : Option FloodRow × List PAct :=
  if env.isAdmin then (env.floodRow, [])
  else
    match env.floodCfg with
    | none => (env.floodRow, [])
    | some cfg =>
      if !cfg.enabled then (env.floodRow, [])
      else
        let r := antifloodStep cfg.limit true env.floodRow now
        (r.1, if r.2 then floodActs cfg.action else [])

/-- Platform calls of the antilink action branch (lines 6311-6317); the
unlisted default action (`delete`) adds nothing beyond the delete. -/
def linkActs (action : List Char) : List PAct :=
  if action = "warn".toList then [.warnInsert]
  else if action = "kick".toList then [.banMember, .unbanMember]
  else if action = "ban".toList then [.banMember]
  else []

/-- `antilink_check` (lines 6289-6319), the registered link filter.  It has
no approval lookup.  Its `try` block deletes the message first; if the
message is already deleted the delete raises and the whole block is skipped
(`except: pass`).  `deleted` is threaded through the pipeline. -/
def antilinkCheck (env : Env) (m : Msg) (deleted : Bool) : Bool × List PAct :=
  if env.isAdmin then (deleted, [])
  else
    match env.linkCfg with
    | none => (deleted, [])
    | some cfg =>
      if !cfg.enabled then (deleted, [])
      else
        if hasLink (pyTextOr m.text m.caption) then
          if deleted then (deleted, [])
          else (true, .deleteMsg :: linkActs cfg.action)
        else (deleted, [])

/-- `check_antispam` (lines 6223-6244): when enabled and the sender is
globally banned, it bans first and then deletes; if the message is already
deleted the delete raises after the ban has gone through. -/
def checkAntispam (env : Env) (deleted : Bool) : Bool × List PAct :=
  if env.isAdmin then (deleted, [])
  else
    match env.antispamEnabled with
    | none => (deleted, [])
    | some enabled =>
      if !enabled then (deleted, [])
      else if env.gbanned then
        if deleted then (deleted, [.banMember])
        else (true, [.banMember, .deleteMsg])
      else (deleted, [])

/-- `filter_handler` (lines 6985-7011): the first filter whose keyword is a
substring of the lowercased text replies once.  (The word-boundary regex
alternative at line 6999 can only match when the substring test already
matches, so the disjunction reduces to the substring test.)  No admin check,
not punitive. -/
def filterHandler (env : Env) (m : Msg) : List PAct :=
  let text := lowerStr (pyTextOr m.text m.caption)
  if text.isEmpty then []
  else
    match env.filters with
    | none => []
    | some rows =>
      if rows.any (fun f => containsSub (lowerStr f.keyword) text) then [.sendMessage]
      else []

/-- Platform calls of the blacklist action branch (lines 7036-7042). -/
def blActs (action : List Char) : List PAct :=
  if action = "warn".toList then [.warnInsert]
  else if action = "kick".toList then [.banMember, .unbanMember]
  else if action = "ban".toList then [.banMember]
  else []

/-- `blacklist_handler` (lines 7013-7045): first matching trigger acts and
breaks; the `try` deletes first, so on an already-deleted message the action
is skipped. -/
def blacklistHandler (env : Env) (m : Msg) (deleted : Bool) : Bool × List PAct :=
  if env.isAdmin then (deleted, [])
  else
    let text := lowerStr (pyTextOr m.text m.caption)
    if text.isEmpty then (deleted, [])
    else
      match env.blacklist with
      | none => (deleted, [])
      | some rows =>
        match rows.find? (fun r => containsSub (lowerStr r.trigger) text) with
        | none => (deleted, [])
        | some r =>
          if deleted then (deleted, [])
          else (true, .deleteMsg :: blActs r.action)

/-- `message_handler_main` (lines 7506-7527): the registered per-message
pipeline.  Returns the new flood row, the final deleted flag, and the
concatenated platform calls in execution order. -/
def messageHandlerMain (env : Env) (m : Msg) (now : Int) :
    Option FloodRow × Bool × List PAct :=
  let f := antifloodCheck env now
  let l := antilinkCheck env m false
  let s := checkAntispam env l.1
  let ff := filterHandler env m
  let b := blacklistHandler env m s.1
  (f.1, b.1, f.2 ++ l.2 ++ s.2 ++ ff ++ b.2)

/-- Python `msg.text` truthiness plus the `startswith` test of line 3366. -/
def textLockMatch (t : Option (List Char)) : Bool :=
  match t with
  | some s => !s.isEmpty && !(isPrefixList "/".toList s)
  | none => false

/-- `lock_message_handler` (lines 3341-3402).  It is defined in the source
but never registered and never invoked by `message_handler_main`. -/
def lockMessageHandler (env : Env) (m : Msg) (deleted : Bool) : Bool × List PAct :=
  if env.isAdmin then (deleted, [])
  else
    match env.lockedTypes with
    | none => (deleted, [])
    | some locked =>
      if locked.isEmpty then (deleted, [])
      else
        let shouldDelete :=
          if locked.contains "all".toList then true
          else if locked.contains "text".toList && textLockMatch m.text then true
          else if locked.contains "media".toList && (m.photo || m.video || m.document || m.audio) then true
          else if locked.contains "sticker".toList && m.sticker then true
          else if locked.contains "gif".toList && m.animation then true
          else if locked.contains "photo".toList && m.photo then true
          else if locked.contains "video".toList && m.video then true
          else if locked.contains "voice".toList && m.voice then true
          else if locked.contains "document".toList && m.document then true
          else if locked.contains "audio".toList && m.audio then true
          else if locked.contains "poll".toList && m.poll then true
          else if locked.contains "forward".toList && m.forward then true
          else if locked.contains "contact".toList && m.contact then true
          else if locked.contains "location".toList && m.location then true
          else if locked.contains "url".toList && m.urlEntity then true
          else false
        if shouldDelete then
          if deleted then (deleted, []) else (true, [.deleteMsg])
        else (deleted, [])

/-- The unregistered `antilink_handler` (lines 3454-3517), dead code, which
does consult the approvals table before acting. -/
def antilinkHandlerUnused (env : Env) (m : Msg) (deleted : Bool) : Bool × List PAct :=
  match m.text with
  | none => (deleted, [])
  | some t =>
    if t.isEmpty then (deleted, [])
    else if env.isAdmin then (deleted, [])
    else if env.approved then (deleted, [])
    else
      match env.linkCfg with
      | none => (deleted, [])
      | some cfg =>
        if !cfg.enabled then (deleted, [])
        else if hasLink t || m.urlEntity then
          if deleted then (deleted, [])
          else (true, .deleteMsg ::
            (if cfg.action = "warn".toList then [.warnInsert]
             else if cfg.action = "mute".toList then [.restrictMember]
             else if cfg.action = "ban".toList then [.banMember]
             else if cfg.action = "kick".toList then [.banMember, .unbanMember]
             else []))
        else (deleted, [])

/-- Follows the words of claims C2 and C3 (not the source): the punitive
stages run in the fixed order content-lock, blacklist, link; the first stage
to claim a violation stops the chain; an approved sender bypasses all three;
the link stage runs only for non-approved senders. -/
def pipelineClaimed (env : Env) (m : Msg) : List PAct :=
  if env.isAdmin then []
  else if env.approved then []
  else
    let lockClaims :=
      match env.lockedTypes with
      | none => false
      | some locked =>
        locked.contains "all".toList ||
        (locked.contains "text".toList && textLockMatch m.text) ||
        (locked.contains "media".toList && (m.photo || m.video || m.document || m.audio)) ||
        (locked.contains "sticker".toList && m.sticker) ||
        (locked.contains "gif".toList && m.animation) ||
        (locked.contains "photo".toList && m.photo) ||
        (locked.contains "video".toList && m.video) ||
        (locked.contains "voice".toList && m.voice) ||
        (locked.contains "document".toList && m.document) ||
        (locked.contains "audio".toList && m.audio) ||
        (locked.contains "poll".toList && m.poll) ||
        (locked.contains "forward".toList && m.forward) ||
        (locked.contains "contact".toList && m.contact) ||
        (locked.contains "location".toList && m.location) ||
        (locked.contains "url".toList && m.urlEntity)
    if lockClaims then [.deleteMsg]
    else
      let text := lowerStr (pyTextOr m.text m.caption)
      match (env.blacklist.getD []).find? (fun r => containsSub (lowerStr r.trigger) text) with
      | some r => .deleteMsg :: blActs r.action
      | none =>
        match env.linkCfg with
        | none => []
        | some cfg =>
          if cfg.enabled && hasLink (pyTextOr m.text m.caption) then
            .deleteMsg :: linkActs cfg.action
          else []

/-! ## Federation ban (`fban_command`, bot.py lines 5281-5343)

After the permission gate, the target is appended to the federation's
`banned_users` JSON list (if not already present) and the list is written
back; then every `fed_chats` member group gets a `ban_chat_member` attempt,
counting successes (`except Exception: pass`), and the reply reports only
that success count. -/

structure Federation where
  ownerId : Int
  admins : List Int
  bannedUsers : List Int
  deriving DecidableEq, Repr

structure FbanResult where
  fed : Federation
  bannedCount : Nat
  rejected : Bool
  deriving DecidableEq, Repr

/-- `fban_command` core, with the per-group ban outcomes supplied by `banOk`.
`rejected` is true when the actor fails the owner-or-admin gate, in which
case nothing is mutated. -/
def fbanCommand (fed : Federation) (actor target : Int) (fedChats : List Int)
    (banOk : Int → Bool) : FbanResult :=
  if actor ≠ fed.ownerId ∧ actor ∉ fed.admins then ⟨fed, 0, true⟩
  else
    let banned := if target ∈ fed.bannedUsers then fed.bannedUsers
      else fed.bannedUsers ++ [target]
    ⟨⟨fed.ownerId, fed.admins, banned⟩, (fedChats.filter banOk).length, false⟩

/-- Follows the words of claim C5 (not the source): the fan-out reports a
structured result listing both the member groups whose ban succeeded and the
member groups whose ban failed. -/
def fbanReportClaimed (fedChats : List Int) (banOk : Int → Bool) :
    List Int × List Int :=
  (fedChats.filter banOk, fedChats.filter (fun g => !banOk g))

/-! ## Join-time verification (captcha)

`handle_captcha_welcome` (lines 2340-2394) restricts the new member and
posts either a single verify button (`captcha_verify_{id}`) or a math
keyboard (`captcha_math_{uid}_{opt}_{answer}`).  The registered callback
dispatcher is `callback_handler` (lines 7128-7171): its `captcha_` branch
splits the data on underscores and acts only when the second part is
`verify` and the presser is the target; every other captcha callback falls
through without touching any state.  The job queue started in `main`
(lines 7472-7475) runs only `check_reminders` (sends due reminders),
`check_scheduled_messages` (sends due messages) and `check_nightmode`
(sets chat-wide permissions); none of the three reads captcha state or
kicks, bans or restricts any individual member, so the passage of time
never removes a pending member. -/

inductive CaptchaMode where
  | button
  | math
  deriving DecidableEq, Repr

/-- The per-member verification state that the handlers can affect:
whether the member is currently content-restricted, and how many
remove-from-group (ban/kick) calls have been issued against them. -/
structure VerifState where
  restricted : Bool
  kicks : Nat
  deriving DecidableEq, Repr

/-- Callback payloads, decoded from the underscore-separated data string:
`captcha_{action}_{userId}` with any numeric tail. -/
inductive CbData where
  | captcha (action : List Char) (userId : Int) (extra : List Int)
  | other
  deriving DecidableEq, Repr

/-- The captcha branch of `callback_handler` (lines 7147-7169), viewed from
the verification state of the member `target`.  Only `action = verify`
pressed by the encoded user themself does anything: that user is
unrestricted and the prompt deleted; `target`'s state changes only when the
encoded user is `target`. -/
def callbackHandler (target presser : Int) (d : CbData) (st : VerifState) :
    VerifState × List PAct :=
  match d with
  | .captcha action uid _ =>
    if action = "verify".toList then
      if presser = uid then
        (if uid = target then ⟨false, st.kicks⟩ else st,
         [.unrestrictMember, .deleteMsg])
      else (st, [])
    else (st, [])
  | .other => (st, [])

/-- Events that can touch a pending member's verification state. -/
inductive BotEvent where
  | joinCaptcha (mode : CaptchaMode)
  | callback (presser : Int) (d : CbData)
  | jobTick
  deriving Repr

/-- System step for the member `target`: joining with captcha enabled
restricts them; callbacks go through `callback_handler`; a job-queue tick
runs the three registered jobs, none of which touches this state. -/
def verifStep (target : Int) (st : VerifState) : BotEvent → VerifState
  | .joinCaptcha _ => ⟨true, st.kicks⟩
  | .callback presser d => (callbackHandler target presser d st).1
  | .jobTick => st

/-- Whether an event is the member's own successful verify press. -/
def isOwnVerify (target : Int) : BotEvent → Bool
  | .callback presser (.captcha action uid _) =>
    action = "verify".toList && presser = target && uid = target
  | _ => false

/-! ## Threshold commands

`warnlimit_command` (lines 3106-3121) validates its argument with `isdigit`
and the range 1..100 before writing `warn_limit`; `setflood_command`
(lines 3540-3551) validates only `isdigit` and writes `antiflood_limit`
unchecked. -/

/-- Python `s.isdigit()` for a command argument (arguments are nonempty). -/
def isDigitsArg (s : List Char) : Bool := !s.isEmpty && s.all Char.isDigit

/-- Python `int(s)` on a digit string. -/
def digitsVal (s : List Char) : Nat :=
  s.foldl (fun a c => a * 10 + (c.toNat - 48)) 0

/-- The two threshold columns of the `chats` row touched here. -/
structure ChatLimits where
  warnLimit : Nat
  antifloodLimit : Nat
  deriving DecidableEq, Repr

/-- `warnlimit_command`: returns the (possibly) updated row and whether the
argument was rejected without mutation. -/
def warnlimitCommand (args : List (List Char)) (row : ChatLimits) :
    ChatLimits × Bool :=
  match args with
  | [] => (row, true)
  | a :: _ =>
    if !isDigitsArg a then (row, true)
    else
      let n := digitsVal a
      if n < 1 ∨ 100 < n then (row, true)
      else (⟨n, row.antifloodLimit⟩, false)

/-- `setflood_command`: any digit string is stored without a range check. -/
def setfloodCommand (args : List (List Char)) (row : ChatLimits) :
    ChatLimits × Bool :=
  match args with
  | [] => (row, true)
  | a :: _ =>
    if !isDigitsArg a then (row, true)
    else (⟨row.warnLimit, digitsVal a⟩, false)

/-! ## Helper lemmas -/

theorem warnEvent_fire (L c : Nat) (h : L ≤ c + 1) :
    warnEvent L true c = (0, true) := by
  simp [warnEvent, h]

theorem warnEvent_noFire (L c : Nat) (ok : Bool) (h : c + 1 < L) :
    warnEvent L ok c = (c + 1, false) := by
  simp [warnEvent, Nat.not_le.mpr h]

theorem runWarns_cons (L c : Nat) (ok : Bool) (rest : List Bool) :
    runWarns L c (ok :: rest) =
      ((runWarns L (warnEvent L ok c).1 rest).1,
       (if (warnEvent L ok c).2 then 1 else 0) +
         (runWarns L (warnEvent L ok c).1 rest).2) := rfl

theorem warnTrace_cons (L c : Nat) (ok : Bool) (rest : List Bool) :
    warnTrace L c (ok :: rest) =
      warnEvent L ok c :: warnTrace L (warnEvent L ok c).1 rest := rfl

theorem runWarns_replicate (L : Nat) (hL : 1 ≤ L) :
    ∀ n c : Nat, c < L →
      runWarns L c (List.replicate n true) = ((c + n) % L, (c + n) / L) := by
  intro n
  induction n with
  | zero =>
    intro c hc
    simp [runWarns, Nat.mod_eq_of_lt hc, Nat.div_eq_of_lt hc]
  | succ n ih =>
    intro c hc
    rw [List.replicate_succ, runWarns_cons]
    by_cases h : L ≤ c + 1
    · have hcL : c + 1 = L := Nat.le_antisymm hc h
      rw [warnEvent_fire L c h]
      rw [ih 0 hL]
      have h1 : c + (n + 1) = n + L := by omega
      have h2 : (n + L) % L = n % L := by
        simp [Nat.add_mod_right]
      have h3 : (n + L) / L = n / L + 1 := Nat.add_div_right n hL
      simp [h1, h2, h3]
      omega
    · have hlt : c + 1 < L := Nat.lt_of_not_le h
      rw [warnEvent_noFire L c true hlt]
      rw [ih (c + 1) hlt]
      have h1 : c + 1 + n = c + (n + 1) := by omega
      simp [h1]

theorem warnTrace_success_inv (L : Nat) :
    ∀ n c : Nat, c < L →
      ∀ p ∈ warnTrace L c (List.replicate n true),
        p.1 < L ∧ (p.2 = true → p.1 = 0) := by
  intro n
  induction n with
  | zero =>
    intro c hc p hp
    simp [warnTrace] at hp
  | succ n ih =>
    intro c hc p hp
    rw [List.replicate_succ, warnTrace_cons] at hp
    rcases List.mem_cons.mp hp with h | h
    · by_cases hfire : L ≤ c + 1
      · rw [warnEvent_fire L c hfire] at h
        subst h
        exact ⟨Nat.lt_of_le_of_lt (Nat.zero_le c) hc, fun _ => rfl⟩
      · have hlt : c + 1 < L := Nat.lt_of_not_le hfire
        rw [warnEvent_noFire L c true hlt] at h
        subst h
        exact ⟨hlt, by simp⟩
    · by_cases hfire : L ≤ c + 1
      · rw [warnEvent_fire L c hfire] at h
        exact ih 0 (Nat.lt_of_le_of_lt (Nat.zero_le c) hc) p h
      · have hlt : c + 1 < L := Nat.lt_of_not_le hfire
        rw [warnEvent_noFire L c true hlt] at h
        exact ih (c + 1) hlt p h

theorem antifloodStep_incr (limit : Nat) (ok : Bool) (t0 now : Int) (c : Nat)
    (h5 : now - t0 < 5) (hlt : c + 1 < limit) :
    antifloodStep limit ok (some ⟨some t0, c⟩) now = (some ⟨some t0, c + 1⟩, false) := by
  simp [antifloodStep, timeDiff, h5, Nat.not_le.mpr hlt]

theorem antifloodStep_fire (limit : Nat) (t0 now : Int) (c : Nat)
    (h5 : now - t0 < 5) (hge : limit ≤ c + 1) :
    antifloodStep limit true (some ⟨some t0, c⟩) now = (none, true) := by
  simp [antifloodStep, timeDiff, h5, hge]

theorem antifloodStep_reset (limit : Nat) (ok : Bool) (fl : FloodRow) (now : Int)
    (h5 : ¬ timeDiff now fl.firstTime < 5) :
    antifloodStep limit ok (some fl) now = (some ⟨some now, 1⟩, false) := by
  simp [antifloodStep, h5]

theorem runFlood_cons (limit : Nat) (st : Option FloodRow) (t : Int) (rest : List Int) :
    runFlood limit st (t :: rest) =
      ((runFlood limit (antifloodStep limit true st t).1 rest).1,
       (if (antifloodStep limit true st t).2 then 1 else 0) +
         (runFlood limit (antifloodStep limit true st t).1 rest).2) := rfl

theorem runFlood_window_noFire (limit : Nat) (t0 : Int) :
    ∀ (ts : List Int) (c : Nat), (∀ t ∈ ts, t - t0 < 5) → c + ts.length < limit →
      runFlood limit (some ⟨some t0, c⟩) ts = (some ⟨some t0, c + ts.length⟩, 0) := by
  intro ts
  induction ts with
  | nil =>
    intro c _ _
    simp [runFlood]
  | cons t rest ih =>
    intro c hin hlt
    have h5 : t - t0 < 5 := hin t (List.mem_cons_self t rest)
    have hc1 : c + 1 < limit := by
      simp only [List.length_cons] at hlt
      omega
    rw [runFlood_cons, antifloodStep_incr limit true t0 t c h5 hc1]
    have hrest : c + 1 + rest.length < limit := by
      simp only [List.length_cons] at hlt
      omega
    rw [ih (c + 1) (fun x hx => hin x (List.mem_cons_of_mem t hx)) hrest]
    have hlen : c + 1 + rest.length = c + (rest.length + 1) := by omega
    simp [hlen]

theorem runFlood_window_fire (limit : Nat) (t0 : Int) :
    ∀ (ts : List Int) (c : Nat), ts ≠ [] → (∀ t ∈ ts, t - t0 < 5) →
      c + ts.length = limit →
      runFlood limit (some ⟨some t0, c⟩) ts = (none, 1) := by
  intro ts
  induction ts with
  | nil =>
    intro c hne _ _
    exact absurd rfl hne
  | cons t rest ih =>
    intro c _ hin hlen
    have h5 : t - t0 < 5 := hin t (List.mem_cons_self t rest)
    cases rest with
    | nil =>
      have hc1 : limit ≤ c + 1 := by
        simp only [List.length_cons, List.length_nil] at hlen
        omega
      rw [runFlood_cons, antifloodStep_fire limit t0 t c h5 hc1]
      simp [runFlood]
    | cons r rs =>
      have hc1 : c + 1 < limit := by
        simp only [List.length_cons] at hlen
        omega
      rw [runFlood_cons, antifloodStep_incr limit true t0 t c h5 hc1]
      have := ih (c + 1) (by simp) (fun x hx => hin x (List.mem_cons_of_mem t hx)) ?_
      · rw [this]
        simp
      · simp only [List.length_cons] at hlen ⊢
        omega

/-! ## Claim C1 — warning escalation -/

/-- Claim C1, counterexample.  The claim as stated quantifies over every
sequence of warning-producing events; when the third warning's escalation
action fails (the `TelegramError` branch of `warn_command`), the DELETE of
the warnings rows is skipped, so the settled count equals the warn limit 3
and is not 0 immediately after the firing — refuting both invariant parts
of the claim on the event sequence true, true, false with warnLimit 3. -/
theorem warn_escalation_claim_false :
    ¬ (∀ p ∈ warnTrace 3 0 [true, true, false],
        (p.2 = true → p.1 = 0) ∧ p.1 ≠ 3) := by
  decide

/-- Claim C1, amended: provided each firing's platform action succeeds, a
sequence of n warning-producing events on a key with warnLimit L (≥ 1)
attempts the escalation action exactly n / L times, every settled count is
below L, and the count is 0 immediately after each firing. -/
theorem warn_escalation_per_limit (L n : Nat) (hL : 1 ≤ L) :
    runWarns L 0 (List.replicate n true) = (n % L, n / L) ∧
    ∀ p ∈ warnTrace L 0 (List.replicate n true),
      p.1 < L ∧ (p.2 = true → p.1 = 0) := by
  constructor
  · have h := runWarns_replicate L hL n 0 hL
    simpa using h
  · exact warnTrace_success_inv L n 0 hL

/-- Witness for `warn_escalation_per_limit` at L = 3, n = 7. -/
theorem warn_escalation_per_limit_witness :
    1 ≤ 3 ∧
    (runWarns 3 0 (List.replicate 7 true) = (7 % 3, 7 / 3) ∧
     ∀ p ∈ warnTrace 3 0 (List.replicate 7 true),
       p.1 < 3 ∧ (p.2 = true → p.1 = 0)) :=
  ⟨by decide, warn_escalation_per_limit 3 7 (by decide)⟩

/-! ## Claim C4 — flood detector -/

/-- Claim C4, counterexample.  The claim's general rule resets the window
only when the elapsed time exceeds the 5-second window; the code resets
whenever the strict `time_diff < 5` test fails, i.e. already at elapsed
time exactly 5.  At windowStart 0, count 1, a message at time 5: the code
resets to windowStart 5, count 1, while the claimed rule increments the
count to 2 keeping windowStart 0. -/
theorem antiflood_claim_false :
    antifloodStep 10 true (some ⟨some 0, 1⟩) 5 = (some ⟨some 5, 1⟩, false) ∧
    antifloodStepClaimed 10 (some ⟨some 0, 1⟩) 5 = (some ⟨some 0, 2⟩, false) ∧
    (some (⟨some 5, 1⟩ : FloodRow) : Option FloodRow) ≠ some ⟨some 0, 2⟩ := by
  decide

/-- Claim C4, amended: with floodLimit 10 and the 5-second window, 10
messages whose elapsed times since the first all stay strictly below 5
seconds fire the flood action exactly once (and clear the row); the same 10
messages spread 2 seconds apart across 18 seconds fire zero times; and in
general a message resets the window to windowStart now, count 1 when at
least 5 seconds elapsed since windowStart, otherwise increments the count,
firing and clearing the row exactly when the new count reaches the limit. -/
theorem antiflood_detector_behavior :
    (∀ (t0 : Int) (ts : List Int), ts.length = 9 → (∀ t ∈ ts, t - t0 < 5) →
      runFlood 10 none (t0 :: ts) = (none, 1)) ∧
    runFlood 10 none [0, 2, 4, 6, 8, 10, 12, 14, 16, 18] =
      (some ⟨some 18, 1⟩, 0) ∧
    (∀ (limit : Nat) (fl : FloodRow) (now : Int),
      5 ≤ timeDiff now fl.firstTime →
      antifloodStep limit true (some fl) now = (some ⟨some now, 1⟩, false)) ∧
    (∀ (limit : Nat) (t0 now : Int) (c : Nat), now - t0 < 5 → c + 1 < limit →
      antifloodStep limit true (some ⟨some t0, c⟩) now =
        (some ⟨some t0, c + 1⟩, false)) ∧
    (∀ (limit : Nat) (t0 now : Int) (c : Nat), now - t0 < 5 → limit ≤ c + 1 →
      antifloodStep limit true (some ⟨some t0, c⟩) now = (none, true)) := by
  refine ⟨?_, by decide, ?_, ?_, ?_⟩
  · intro t0 ts hlen hin
    have h0 : antifloodStep 10 true none t0 = (some ⟨some t0, 1⟩, false) := rfl
    rw [runFlood_cons, h0]
    rw [runFlood_window_fire 10 t0 ts 1 ?_ hin ?_]
    · simp
    · intro hnil
      rw [hnil] at hlen
      simp at hlen
    · omega
  · intro limit fl now h
    exact antifloodStep_reset limit true fl now (by omega)
  · intro limit t0 now c h5 hlt
    exact antifloodStep_incr limit true t0 now c h5 hlt
  · intro limit t0 now c h5 hge
    exact antifloodStep_fire limit t0 now c h5 hge

/-- Witness for `antiflood_detector_behavior` on concrete inputs. -/
theorem antiflood_detector_behavior_witness :
    runFlood 10 none (0 :: [1, 1, 2, 2, 3, 3, 4, 4, 4]) = (none, 1) ∧
    antifloodStep 10 true (some ⟨some 0, 1⟩) 6 = (some ⟨some 6, 1⟩, false) ∧
    antifloodStep 10 true (some ⟨some 0, 3⟩) 4 = (some ⟨some 0, 4⟩, false) ∧
    antifloodStep 10 true (some ⟨some 0, 9⟩) 4 = (none, true) :=
  ⟨antiflood_detector_behavior.1 0 [1, 1, 2, 2, 3, 3, 4, 4, 4] (by decide) (by decide),
   antiflood_detector_behavior.2.2.1 10 ⟨some 0, 1⟩ 6 (by decide),
   antiflood_detector_behavior.2.2.2.1 10 0 4 3 (by decide) (by decide),
   antiflood_detector_behavior.2.2.2.2 10 0 4 9 (by decide) (by decide)⟩

/-! ## Claim C7 — failed actions and counter resets -/

/-- Claim C7, counterexample.  When the escalation (resp. flood) platform
action fails, the claim says the counter is still reset; in the code the
DELETE statements sit after the platform calls inside the `try` blocks
(warn: lines 2974-2994, warn_user_internal: 6333-6341, flood: 6271-6283),
so on failure the warning count stays at the post-increment value 3 (not 0)
and the flood row keeps count 10 (not cleared). -/
theorem failed_action_claim_false :
    (warnEvent 3 false 2).2 = true ∧ (warnEvent 3 false 2).1 = 3 ∧
    antifloodStep 10 false (some ⟨some 0, 9⟩) 2 =
      (some ⟨some 0, 10⟩, true) ∧
    (3 : Nat) ≠ 0 ∧ (some (⟨some 0, 10⟩ : FloodRow) : Option FloodRow) ≠ none := by
  decide

/-- Claim C7, amended: when the platform action of a firing fails, the
counters are NOT reset — the warning count keeps its post-increment value
(at least the limit), so the very next warning-producing event fires again,
and the flood row keeps its incremented count, so the very next in-window
message fires again; `warn_command` additionally reports the failure (its
`TelegramError` handler replies), which `warnCommandStep`'s third component
records. -/
theorem failed_action_keeps_counter (L c limit cnt : Nat) (t0 now now2 : Int)
    (hL : L ≤ c + 1) (hlim : limit ≤ cnt + 1)
    (hw : now - t0 < 5) (hw2 : now2 - t0 < 5) :
    warnEvent L false c = (c + 1, true) ∧
    (warnEvent L false (c + 1)).2 = true ∧
    warnCommandStep L false c = (c + 1, true, true) ∧
    antifloodStep limit false (some ⟨some t0, cnt⟩) now =
      (some ⟨some t0, cnt + 1⟩, true) ∧
    (antifloodStep limit false (some ⟨some t0, cnt + 1⟩) now2).2 = true := by
  have h1 : warnEvent L false c = (c + 1, true) := by
    simp [warnEvent, hL]
  have h2 : L ≤ c + 1 + 1 := by omega
  refine ⟨h1, by simp [warnEvent, h2], by simp [warnCommandStep, h1], ?_, ?_⟩
  · simp [antifloodStep, timeDiff, hw, hlim]
  · have hlim2 : limit ≤ cnt + 1 + 1 := by omega
    simp [antifloodStep, timeDiff, hw2, hlim2]

/-- Witness for `failed_action_keeps_counter` at concrete values. -/
theorem failed_action_keeps_counter_witness :
    (3 ≤ 2 + 1 ∧ 10 ≤ 9 + 1 ∧ (1 : Int) - 0 < 5 ∧ (2 : Int) - 0 < 5) ∧
    (warnEvent 3 false 2 = (3, true) ∧
     (warnEvent 3 false 3).2 = true ∧
     warnCommandStep 3 false 2 = (3, true, true) ∧
     antifloodStep 10 false (some ⟨some 0, 9⟩) 1 = (some ⟨some 0, 10⟩, true) ∧
     (antifloodStep 10 false (some ⟨some 0, 10⟩) 2).2 = true) :=
  ⟨⟨by decide, by decide, by decide, by decide⟩,
   failed_action_keeps_counter 3 2 10 9 0 1 2 (by decide) (by decide)
     (by decide) (by decide)⟩

/-! ## Pipeline lemmas -/

theorem blacklistHandler_deleted (env : Env) (m : Msg) :
    blacklistHandler env m true = (true, []) := by
  unfold blacklistHandler
  repeat' split
  all_goals try simp_all
  all_goals intro _
  all_goals split <;> rfl

theorem antilinkCheck_deleted (env : Env) (m : Msg) :
    antilinkCheck env m true = (true, []) := by
  unfold antilinkCheck
  repeat' split
  all_goals simp_all

theorem checkAntispam_fst (env : Env) :
    (checkAntispam env true).1 = true := by
  unfold checkAntispam
  repeat' split
  all_goals simp_all

/-! ## Claim C2 — stage order and short-circuiting -/

/-- Claim C2, counterexample.  A sticker message in a group whose lock
configuration locks stickers, sent by a plain member: the claimed pipeline
(lock check first, claiming with delete) produces the delete, but the
registered pipeline (`message_handler_main`) never invokes the lock stage —
`lock_message_handler` is dead code — and executes no action at all. -/
theorem pipeline_order_claim_false :
    (messageHandlerMain
      { lockedTypes := some ["sticker".toList], blacklist := some [],
        linkCfg := some { enabled := true }, floodCfg := some { enabled := false },
        antispamEnabled := some false, filters := some [] }
      { sticker := true } 0).2.2 = [] ∧
    pipelineClaimed
      { lockedTypes := some ["sticker".toList], blacklist := some [],
        linkCfg := some { enabled := true }, floodCfg := some { enabled := false },
        antispamEnabled := some false, filters := some [] }
      { sticker := true } = [.deleteMsg] := by
  decide

/-- Claim C2, amended: the registered pipeline runs the flood, link, spam,
filter and blacklist checks in that order; its output never depends on the
locked-types configuration (the content-lock stage is never invoked); a
stage reached after the message was already deleted executes nothing (its
delete raises and aborts its try block), which is the only cross-stage
suppression; and when the link stage claims, the executed punitive actions
are the delete plus the configured link action, with the blacklist stage
contributing none even if a trigger would match — the link stage precedes
the blacklist stage, the opposite of the claimed order. -/
theorem pipeline_order_behavior (env : Env) (m : Msg) (now : Int)
    (lt1 lt2 : Option (List (List Char))) (cfg : LinkCfg)
    (hadm : env.isAdmin = false) (hcfg : env.linkCfg = some cfg)
    (hen : cfg.enabled = true)
    (hmatch : hasLink (pyTextOr m.text m.caption) = true) :
    messageHandlerMain { env with lockedTypes := lt1 } m now =
      messageHandlerMain { env with lockedTypes := lt2 } m now ∧
    (blacklistHandler env m true).2 = [] ∧
    (messageHandlerMain env m now).2.2 =
      (antifloodCheck env now).2 ++ (.deleteMsg :: linkActs cfg.action) ++
        (checkAntispam env true).2 ++ filterHandler env m := by
  refine ⟨rfl, (blacklistHandler_deleted env m).symm ▸ rfl, ?_⟩
  have hlink : antilinkCheck env m false = (true, .deleteMsg :: linkActs cfg.action) := by
    simp [antilinkCheck, hadm, hcfg, hen, hmatch]
  show (let f := antifloodCheck env now
        let l := antilinkCheck env m false
        let s := checkAntispam env l.1
        let ff := filterHandler env m
        let b := blacklistHandler env m s.1
        (f.1, b.1, f.2 ++ l.2 ++ s.2 ++ ff ++ b.2)).2.2 = _
  rw [hlink]
  have hs1 : (checkAntispam env true).1 = true := checkAntispam_fst env
  have hb : blacklistHandler env m (checkAntispam env true).1 = (true, []) := by
    rw [hs1]
    exact blacklistHandler_deleted env m
  simp only [hb]
  simp

/-- Witness for `pipeline_order_behavior`: a non-admin sender posts a link
while a blacklist trigger would also match; only the link stage acts. -/
theorem pipeline_order_behavior_witness :
    (({ linkCfg := some { enabled := true, action := "ban".toList },
        floodCfg := some { enabled := false }, antispamEnabled := some false,
        filters := some [], blacklist := some [⟨"spam".toList, "kick".toList⟩] } :
          Env).isAdmin = false) ∧
    (messageHandlerMain
      { linkCfg := some { enabled := true, action := "ban".toList },
        floodCfg := some { enabled := false }, antispamEnabled := some false,
        filters := some [], blacklist := some [⟨"spam".toList, "kick".toList⟩] }
      { text := some "spam at http://x.example".toList } 0).2.2 =
      [.deleteMsg, .banMember] := by
  constructor
  · rfl
  · have h := pipeline_order_behavior
      { linkCfg := some { enabled := true, action := "ban".toList },
        floodCfg := some { enabled := false }, antispamEnabled := some false,
        filters := some [], blacklist := some [⟨"spam".toList, "kick".toList⟩] }
      { text := some "spam at http://x.example".toList } 0 none none
      { enabled := true, action := "ban".toList } rfl rfl rfl (by decide)
    rw [h.2.2]
    decide

/-! ## Claim C3 — approved-member bypass -/

/-- Claim C3, counterexample.  An approved, non-admin sender posts a link in
a group with antilink enabled (action ban): the claim says no punitive
action may be taken, but the registered `antilink_check` never consults the
approvals table and the message is deleted and the sender banned. -/
theorem approved_bypass_claim_false :
    (messageHandlerMain
      { approved := true,
        linkCfg := some { enabled := true, action := "ban".toList },
        floodCfg := some { enabled := false }, antispamEnabled := some false,
        filters := some [], blacklist := some [] }
      { text := some "http://spam.example".toList } 0).2.2 =
      [.deleteMsg, .banMember] ∧
    ([PAct.deleteMsg, PAct.banMember] ≠ ([] : List PAct)) := by
  decide

/-- Claim C3, amended: the registered pipeline ignores the approvals table
entirely — its output is independent of the approved flag, so a matching
non-admin sender receives the punitive action whether approved or not; the
content-lock stage never takes an action for anyone (it is not invoked);
the approval bypass exists only in the unregistered, never-called
`antilink_handler`, which indeed does nothing when the sender is approved. -/
theorem approved_no_bypass (env : Env) (m : Msg) (now : Int) (b1 b2 : Bool)
    (hap : env.approved = true) :
    messageHandlerMain { env with approved := b1 } m now =
      messageHandlerMain { env with approved := b2 } m now ∧
    (antilinkHandlerUnused env m false).2 = [] := by
  refine ⟨rfl, ?_⟩
  unfold antilinkHandlerUnused
  split
  · rfl
  · split
    · rfl
    · split
      · rfl
      · simp [hap]

/-- Witness for `approved_no_bypass`: an approved sender's link message. -/
theorem approved_no_bypass_witness :
    (({ approved := true, linkCfg := some { enabled := true } } : Env).approved
      = true) ∧
    (messageHandlerMain
      { ({ approved := true, linkCfg := some { enabled := true } } : Env) with
          approved := true }
      { text := some "http://a.example".toList } 0 =
     messageHandlerMain
      { ({ approved := true, linkCfg := some { enabled := true } } : Env) with
          approved := false }
      { text := some "http://a.example".toList } 0 ∧
     (antilinkHandlerUnused
       { approved := true, linkCfg := some { enabled := true } }
       { text := some "http://a.example".toList } false).2 = []) :=
  ⟨rfl, approved_no_bypass
    { approved := true, linkCfg := some { enabled := true } }
    { text := some "http://a.example".toList } 0 true false rfl⟩

/-! ## Claim C5 — federation ban fan-out -/

/-- Claim C5, counterexample.  With three member groups and exactly one
failing ban call, the claim says the operation reports a structured result
listing both the succeeded and the failed groups; the code reports only the
success count (`banned_count`, line 5341), so two runs whose failed groups
differ produce identical results — the report cannot list them — while the
claimed structured report distinguishes the runs. -/
theorem fban_report_claim_false :
    fbanCommand ⟨1, [], []⟩ 1 99 [10, 20, 30] (fun g => g != 30) =
      fbanCommand ⟨1, [], []⟩ 1 99 [10, 20, 30] (fun g => g != 20) ∧
    fbanReportClaimed [10, 20, 30] (fun g => g != 30) ≠
      fbanReportClaimed [10, 20, 30] (fun g => g != 20) ∧
    (fbanCommand ⟨1, [], []⟩ 1 99 [10, 20, 30] (fun g => g != 30)).fed.bannedUsers
      = [99] := by
  decide

/-- Claim C5, amended: a federation ban by the owner or an admin first adds
the target to bannedUsers — idempotently, and regardless of any per-group
failure (no rollback) — then attempts the ban in every member group, and
reports only the number of groups in which the ban succeeded; an
unauthorized actor changes nothing. -/
theorem fban_registry_first (fed : Federation) (actor target : Int)
    (chats : List Int) (banOk : Int → Bool)
    (hauth : actor = fed.ownerId ∨ actor ∈ fed.admins) :
    target ∈ (fbanCommand fed actor target chats banOk).fed.bannedUsers ∧
    (fbanCommand fed actor target chats banOk).bannedCount =
      (chats.filter banOk).length ∧
    (fbanCommand fed actor target chats banOk).rejected = false ∧
    (target ∈ fed.bannedUsers →
      (fbanCommand fed actor target chats banOk).fed.bannedUsers =
        fed.bannedUsers) := by
  have hneg : ¬ (actor ≠ fed.ownerId ∧ actor ∉ fed.admins) := by
    rcases hauth with h | h
    · intro hc
      exact hc.1 h
    · intro hc
      exact hc.2 h
  unfold fbanCommand
  rw [if_neg hneg]
  by_cases hmem : target ∈ fed.bannedUsers
  · rw [if_pos hmem]
    exact ⟨hmem, rfl, rfl, fun _ => rfl⟩
  · rw [if_neg hmem]
    refine ⟨?_, rfl, rfl, fun h => absurd h hmem⟩
    simp

/-- Witness for `fban_registry_first`: an admin bans user 99 across two
groups with one failure. -/
theorem fban_registry_first_witness :
    ((2 : Int) = (⟨1, [2], [99]⟩ : Federation).ownerId ∨
      (2 : Int) ∈ (⟨1, [2], [99]⟩ : Federation).admins) ∧
    (99 ∈ (fbanCommand ⟨1, [2], [99]⟩ 2 99 [10, 20] (fun g => g != 10)).fed.bannedUsers ∧
     (fbanCommand ⟨1, [2], [99]⟩ 2 99 [10, 20] (fun g => g != 10)).bannedCount =
       ([10, 20].filter (fun g => (g : Int) != 10)).length ∧
     (fbanCommand ⟨1, [2], [99]⟩ 2 99 [10, 20] (fun g => g != 10)).rejected = false ∧
     (99 ∈ (⟨1, [2], [99]⟩ : Federation).bannedUsers →
       (fbanCommand ⟨1, [2], [99]⟩ 2 99 [10, 20] (fun g => g != 10)).fed.bannedUsers =
         (⟨1, [2], [99]⟩ : Federation).bannedUsers)) :=
  ⟨by decide, fban_registry_first ⟨1, [2], [99]⟩ 2 99 [10, 20]
    (fun g => g != 10) (by decide)⟩

/-! ## Claim C6 — verification timeout -/

/-- Claim C6: a pending member who never presses their own verify button is
never removed — the code has no timeout mechanism at all.  The captcha
prompt itself promises a kick after 5 minutes (line 2348), but the job
queue (lines 7472-7475) schedules only the reminder, scheduled-message and
night-mode jobs, none of which touches captcha state or removes members:
for every sequence of events containing no verify press by the member,
after any number of job ticks the member is still restricted and zero
remove-from-group calls have been issued. -/
theorem captcha_timeout_never_removes (target : Int) (evs : List BotEvent)
    (h : ∀ e ∈ evs, isOwnVerify target e = false) :
    (evs.foldl (verifStep target) ⟨true, 0⟩).restricted = true ∧
    (evs.foldl (verifStep target) ⟨true, 0⟩).kicks = 0 := by
  have hk : ∀ (l : List BotEvent) (st : VerifState),
      (l.foldl (verifStep target) st).kicks = st.kicks := by
    intro l
    induction l with
    | nil => intro st; rfl
    | cons e rest ih =>
      intro st
      rw [List.foldl_cons, ih]
      cases e with
      | joinCaptcha mode => rfl
      | jobTick => rfl
      | callback presser d =>
        cases d with
        | other => rfl
        | captcha action uid extra =>
          simp only [verifStep, callbackHandler]
          split
          · split
            · split
              · rfl
              · rfl
            · rfl
          · rfl
  have hr : ∀ (l : List BotEvent) (st : VerifState),
      (∀ e ∈ l, isOwnVerify target e = false) → st.restricted = true →
      (l.foldl (verifStep target) st).restricted = true := by
    intro l
    induction l with
    | nil => intro st _ hst; exact hst
    | cons e rest ih =>
      intro st hall hst
      rw [List.foldl_cons]
      refine ih _ (fun x hx => hall x (List.mem_cons_of_mem e hx)) ?_
      have he : isOwnVerify target e = false := hall e (List.mem_cons_self e rest)
      cases e with
      | joinCaptcha mode => rfl
      | jobTick => exact hst
      | callback presser d =>
        cases d with
        | other => exact hst
        | captcha action uid extra =>
          simp only [verifStep, callbackHandler]
          by_cases hact : action = "verify".toList
          · rw [if_pos hact]
            by_cases hpu : presser = uid
            · rw [if_pos hpu]
              by_cases hut : uid = target
              · exfalso
                rw [isOwnVerify] at he
                simp [hact, hpu, hut] at he
              · rw [if_neg hut]
                exact hst
            · rw [if_neg hpu]
              exact hst
          · rw [if_neg hact]
            exact hst
  exact ⟨hr evs ⟨true, 0⟩ h rfl, hk evs ⟨true, 0⟩⟩

/-- Witness for `captcha_timeout_never_removes`: member 7 joins a
captcha-enabled group, job ticks pass, a math option is pressed and a
stranger presses verify; member 7 stays restricted and unkicked. -/
theorem captcha_timeout_never_removes_witness :
    (∀ e ∈ [BotEvent.jobTick,
            BotEvent.callback 7 (.captcha "math".toList 7 [12, 12]),
            BotEvent.callback 5 (.captcha "verify".toList 7 []),
            BotEvent.jobTick, BotEvent.jobTick],
        isOwnVerify 7 e = false) ∧
    (([BotEvent.jobTick,
       BotEvent.callback 7 (.captcha "math".toList 7 [12, 12]),
       BotEvent.callback 5 (.captcha "verify".toList 7 []),
       BotEvent.jobTick, BotEvent.jobTick].foldl (verifStep 7)
        ⟨true, 0⟩).restricted = true ∧
     ([BotEvent.jobTick,
       BotEvent.callback 7 (.captcha "math".toList 7 [12, 12]),
       BotEvent.callback 5 (.captcha "verify".toList 7 []),
       BotEvent.jobTick, BotEvent.jobTick].foldl (verifStep 7)
        ⟨true, 0⟩).kicks = 0) :=
  ⟨by decide, captcha_timeout_never_removes 7
    [BotEvent.jobTick,
     BotEvent.callback 7 (.captcha "math".toList 7 [12, 12]),
     BotEvent.callback 5 (.captcha "verify".toList 7 []),
     BotEvent.jobTick, BotEvent.jobTick] (by decide)⟩

/-! ## Claim C9 — math-mode captcha is unverifiable -/

/-- Claim C9: the registered callback dispatcher's captcha branch acts only
on the `verify` action, so every math-mode answer callback
(`captcha_math_uid_opt_answer`) leaves the member's verification state
unchanged and performs no platform call — including when the chosen option
equals the correct sum — so a math-mode member can never become verified
through the dispatcher. -/
theorem math_captcha_never_verifies (target presser uid opt ans : Int)
    (st : VerifState) :
    callbackHandler target presser (.captcha "math".toList uid [opt, ans]) st
      = (st, []) := by
  have hne : ¬ ("math".toList = "verify".toList) := by decide
  simp [callbackHandler, hne]

/-! ## Claim C10 — storage failures fail open -/

/-- Claim C10: when every database read involved returns None (the accessor
catches all database exceptions and returns None, lines 129-147), the
pipeline takes no action at all — and individually, the antiflood,
antilink and blacklist checks each treat a None read as nothing configured
and pass the message. -/
theorem db_failure_fails_open (adm gb ap : Bool) (fr : Option FloodRow)
    (m : Msg) (now : Int) :
    messageHandlerMain
      { isAdmin := adm, gbanned := gb, approved := ap, floodCfg := none,
        floodRow := fr, linkCfg := none, antispamEnabled := none,
        filters := none, blacklist := none, lockedTypes := none } m now =
      (fr, false, []) ∧
    (∀ env : Env, env.floodCfg = none → antifloodCheck env now =
      (env.floodRow, [])) ∧
    (∀ env : Env, env.linkCfg = none → ∀ d : Bool,
      antilinkCheck env m d = (d, [])) ∧
    (∀ env : Env, env.blacklist = none → ∀ d : Bool,
      blacklistHandler env m d = (d, [])) := by
  refine ⟨?_, ?_, ?_, ?_⟩
  · cases adm <;>
      simp [messageHandlerMain, antifloodCheck, antilinkCheck, checkAntispam,
        filterHandler, blacklistHandler]
  · intro env h
    by_cases ha : env.isAdmin = true
    · simp [antifloodCheck, ha]
    · simp [antifloodCheck, ha, h]
  · intro env h d
    by_cases ha : env.isAdmin = true
    · simp [antilinkCheck, ha]
    · simp [antilinkCheck, ha, h]
  · intro env h d
    by_cases ha : env.isAdmin = true
    · simp [blacklistHandler, ha]
    · simp [blacklistHandler, ha, h]

/-- Witness for `db_failure_fails_open` at the all-defaults environment. -/
theorem db_failure_fails_open_witness :
    messageHandlerMain
      { isAdmin := false, gbanned := false, approved := false,
        floodCfg := none, floodRow := none, linkCfg := none,
        antispamEnabled := none, filters := none, blacklist := none,
        lockedTypes := none }
      { text := some "hello http://x.example @you".toList } 3 =
      (none, false, []) ∧
    antifloodCheck { } 3 = (({ } : Env).floodRow, []) ∧
    antilinkCheck { } { text := some "hello http://x.example @you".toList }
      false = (false, []) ∧
    blacklistHandler { } { text := some "hello http://x.example @you".toList }
      false = (false, []) := by
  have h := db_failure_fails_open false false false none
    { text := some "hello http://x.example @you".toList } 3
  exact ⟨h.1, h.2.1 { } rfl, h.2.2.1 { } rfl false, h.2.2.2 { } rfl false⟩

/-! ## Claim C8 — threshold validation -/

/-- Claim C8, counterexample.  The claim says both threshold commands
require an integer of at least 1 and that an out-of-range argument leaves
the stored policy unchanged; `setflood_command` only checks `isdigit`, so
the argument 0 passes validation and the flood limit is mutated to 0. -/
theorem threshold_claim_false :
    setfloodCommand ["0".toList] ⟨3, 10⟩ = (⟨3, 0⟩, false) ∧
    (⟨3, 0⟩ : ChatLimits) ≠ ⟨3, 10⟩ ∧ digitsVal "0".toList < 1 := by
  decide

/-- Claim C8, amended: `warnlimit_command` rejects a non-digit or
out-of-range (below 1 or above 100) argument before any mutation and stores
an in-range value; `setflood_command` rejects only non-digit arguments and
stores any digit value — including 0 — without a range check. -/
theorem threshold_validation (a : List Char) (row : ChatLimits) :
    (isDigitsArg a = false →
      warnlimitCommand [a] row = (row, true) ∧
      setfloodCommand [a] row = (row, true)) ∧
    (isDigitsArg a = true → (digitsVal a < 1 ∨ 100 < digitsVal a) →
      warnlimitCommand [a] row = (row, true)) ∧
    (isDigitsArg a = true → 1 ≤ digitsVal a → digitsVal a ≤ 100 →
      warnlimitCommand [a] row = (⟨digitsVal a, row.antifloodLimit⟩, false)) ∧
    (isDigitsArg a = true →
      setfloodCommand [a] row = (⟨row.warnLimit, digitsVal a⟩, false)) ∧
    warnlimitCommand [] row = (row, true) ∧
    setfloodCommand [] row = (row, true) := by
  refine ⟨?_, ?_, ?_, ?_, rfl, rfl⟩
  · intro h
    constructor
    · simp [warnlimitCommand, h]
    · simp [setfloodCommand, h]
  · intro h hrange
    show (if (!isDigitsArg a) = true then ((row, true) : ChatLimits × Bool)
        else if digitsVal a < 1 ∨ 100 < digitsVal a then (row, true)
        else (⟨digitsVal a, row.antifloodLimit⟩, false)) = (row, true)
    rw [if_neg (by simp [h]), if_pos hrange]
  · intro h h1 h100
    have hr : ¬ (digitsVal a < 1 ∨ 100 < digitsVal a) := by omega
    show (if (!isDigitsArg a) = true then ((row, true) : ChatLimits × Bool)
        else if digitsVal a < 1 ∨ 100 < digitsVal a then (row, true)
        else (⟨digitsVal a, row.antifloodLimit⟩, false)) =
      (⟨digitsVal a, row.antifloodLimit⟩, false)
    rw [if_neg (by simp [h]), if_neg hr]
  · intro h
    simp [setfloodCommand, h]

/-- Witness for `threshold_validation` at the argument 0 and a default row. -/
theorem threshold_validation_witness :
    (isDigitsArg "0".toList = true ∧
      (digitsVal "0".toList < 1 ∨ 100 < digitsVal "0".toList)) ∧
    warnlimitCommand ["0".toList] ⟨3, 10⟩ = (⟨3, 10⟩, true) ∧
    setfloodCommand ["0".toList] ⟨3, 10⟩ =
      (⟨(⟨3, 10⟩ : ChatLimits).warnLimit, digitsVal "0".toList⟩, false) :=
  ⟨⟨by decide, by decide⟩,
   (threshold_validation "0".toList ⟨3, 10⟩).2.1 (by decide) (by decide),
   (threshold_validation "0".toList ⟨3, 10⟩).2.2.2.1 (by decide)⟩

end MegaBot
